import Mathlib

/-!
Verification of the ODPS DataFrame-to-SQL compiler
(`odps/df/backends/odpssql/compiler.py`) and of the expression layer
(`odps/df/expr/expressions.py`).

The development shallowly embeds the clause-accumulator state machine of
`OdpsSQLCompiler`, the node renderers relevant to the checked claims, the
cached-args override / restoration-callback mechanism used for join, union
and membership-subquery nodes, and the slice branch of
`CollectionExpr.__getitem__`.  Pieces of the Python runtime that the
compiler relies on but that live outside the analysed sources (the
compilation context, `utils.indent`, the node classes of `merge.py`,
`collections.py`, `groupby.py` and `reduction.py`, and the type table of
`types.py`) are modelled from the specification and marked as such.
-/

/-- Python `sep.join(lines)`: concatenation of the strings interleaved with
the separator.  Defined by structural recursion so concrete values reduce
in the kernel. -/
def pyJoin (sep : String) : List String → String
  | [] => ""
  | [x] => x
  | x :: y :: xs => x ++ sep ++ pyJoin sep (y :: xs)

/-- Python truthiness of an optional string attribute (`if self._x:`):
`None` and the empty string are falsy. -/
def pyStrTruthy : Option String → Bool
  | none => false
  | some s => s != ""

/-- Python truthiness of an optional integer attribute (`if not self._limit`
inverted): `None` and `0` are falsy. -/
def pyIntTruthy : Option Int → Bool
  | none => false
  | some n => n != 0

/-- Python `'{0}'.format(x)` on an optional string: `None` renders as the
text `None`. -/
def optFormat : Option String → String
  | none => "None"
  | some s => s

/-- Python `x or d` on an optional string (used for `self._select_clause or
the star default` in `to_sql`). -/
def pyOr (o : Option String) (d : String) : String :=
  if pyStrTruthy o then o.getD "" else d

/-- Split a character list at every occurrence of the separator
character. -/
def splitOnChar (c : Char) : List Char → List (List Char)
  | [] => [[]]
  | x :: xs =>
    let r := splitOnChar c xs
    if x = c then [] :: r
    else
      match r with
      | [] => [[x]]
      | y :: ys => (x :: y) :: ys

/-- Modelled from the spec: `utils.indent(text, n)` is not among the
analysed sources; derived tables are shown parenthesized and indented, so
the model prefixes every line of the text with the compiler's default
indent of two spaces. -/
def indentStr (s : String) : String :=
  pyJoin "\n" ((splitOnChar (Char.ofNat 10) s.data).map (fun l => "  " ++ String.mk l))

/-- Python `str.strip()`: drop leading and trailing whitespace. -/
def pyStrip (s : String) : String :=
  String.mk (((s.data.reverse.dropWhile Char.isWhitespace).reverse).dropWhile Char.isWhitespace)

/-- Python `str.replace(nl, empty)` as used on sub-query text in
`visit_element_op`: remove every newline character. -/
def stripNewlines (s : String) : String :=
  String.mk (s.data.filter (fun c => c != Char.ofNat 10))

/-- Suffix test on strings through their character lists (kernel
reducible). -/
def strEndsWith (s suffix : String) : Bool :=
  suffix.data.isSuffixOf s.data

/-- Whether the pattern occurs as a contiguous run inside the list. -/
def listHasInfix (pat : List Char) : List Char → Bool
  | [] => pat.isEmpty
  | x :: xs => pat.isPrefixOf (x :: xs) || listHasInfix pat xs

/-- Substring test on strings through their character lists (kernel
reducible). -/
def strContains (s pattern : String) : Bool :=
  pattern.data.isEmpty || listHasInfix pattern.data s.data

/-- Python `str.upper()` through the character list (kernel reducible). -/
def pyUpper (s : String) : String :=
  String.mk (s.data.map Char.toUpper)

/-- The Python exceptions that the embedded code can raise. -/
inductive PyErr where
  | compileError (msg : String)
  | assertionError
  | notImplementedError
  | indexError
  | attributeError
  | valueError
  deriving DecidableEq, Repr

/-- The safety cap applied to sorted queries (`GROUPBY_LIMIT = 10000`,
compiler.py line 39). -/
def GROUPBY_LIMIT : Int := 10000

/-- The closed set of primitive DataFrame types of the spec's type
lattice. -/
inductive DfType where
  | boolean | int8 | int16 | int32 | int64
  | float32 | float64 | decimal | string | datetime
  deriving DecidableEq, Repr

/-- Modelled from the spec: `types.df_type_to_odps_type` is not among the
analysed sources; the standard name of each primitive type in the target
SQL dialect, used only to print type names in cast text and cast error
messages. -/
def odpsName : DfType → String
  | .boolean => "boolean"
  | .int8 => "tinyint"
  | .int16 => "smallint"
  | .int32 => "int"
  | .int64 => "bigint"
  | .float32 => "float"
  | .float64 => "double"
  | .decimal => "decimal"
  | .string => "string"
  | .datetime => "datetime"

/-- Whether a DataFrame type is one of the integer types
(`isinstance(expr.source_type, df_types.Integer)`). -/
def isIntegerT : DfType → Bool
  | .int8 | .int16 | .int32 | .int64 => true
  | _ => false

/-- `OdpsSQLCompiler._cast` (compiler.py lines 895-904): check the explicit
cast against the allow-list and either fail with a message naming both
types or wrap the compiled text in a CAST.  The allow-list itself
(`can_explicit_cast`, defined in the type table outside the analysed
sources) is a parameter; the check direction matches line 900
(`to_type.can_explicit_cast(source_odps_type)`). -/
def castExpr (canExplicitCast : String → String → Bool)
    (compiled : String) (sourceType toType : DfType) : Except PyErr String :=
  let sourceOdps := odpsName sourceType
  let toOdps := odpsName toType
  if !(canExplicitCast toOdps sourceOdps) then
    .error (.compileError ("Cannot cast from " ++ sourceOdps ++ " to " ++ toOdps))
  else
    .ok ("CAST(" ++ compiled ++ " AS " ++ toOdps ++ ")")

/-- `OdpsSQLCompiler.visit_cast` (compiler.py lines 906-914): an integer
source cast to datetime renders as an epoch conversion; any other changed
type goes through the allow-list check of `_cast`; an unchanged type keeps
the input text. -/
def visitCast (canExplicitCast : String → String → Bool)
    (compiled : String) (sourceType dtype : DfType) : Except PyErr String :=
  if isIntegerT sourceType && (dtype == DfType.datetime) then
    .ok ("FROM_UNIXTIME(" ++ compiled ++ ")")
  else if dtype ≠ sourceType then
    castExpr canExplicitCast compiled sourceType dtype
  else
    .ok compiled

/-- The reduction kinds dispatched in `visit_reduction`. -/
inductive AggName where
  | count | sum | mean | var | std | max | min | any | all
  deriving DecidableEq, Repr

/-- Modelled from the spec: the reduction node classes live in
`reduction.py`, outside the analysed sources; `node_name` is the class
name, as produced by the `node_name` property of `ElementWise`. -/
def aggNodeName : AggName → String
  | .count => "Count"
  | .sum => "Sum"
  | .mean => "Mean"
  | .var => "Var"
  | .std => "Std"
  | .max => "Max"
  | .min => "Min"
  | .any => "Any"
  | .all => "All"

/-- `OdpsSQLCompiler.visit_reduction` (compiler.py lines 733-769): the
per-function aggregate idiom, including the hard failure on a non-zero
delta-degrees-of-freedom for variance and standard deviation (lines
739-742). -/
def visitReduction (func : AggName) (ddof : Int) (inputIsCollection : Bool)
    (inputDtype : DfType) (input : String) : Except PyErr String :=
  if func == .count && inputIsCollection then
    .ok "COUNT(1)"
  else if (func == .var || func == .std) && ddof != 0 then
    .error (.compileError
      ("Does not support " ++ aggNodeName func ++ " with ddof=" ++ toString ddof))
  else if func == .mean then
    .ok ("AVG(" ++ input ++ ")")
  else if func == .std then
    .ok ("STDDEV(" ++ input ++ ")")
  else if func == .sum && inputDtype == .string then
    .ok ("WM_CONCAT(" ++ String.mk [Char.ofNat 39, Char.ofNat 39] ++ ", " ++ input ++ ")")
  else if func == .sum && inputDtype == .boolean then
    .ok ("SUM(IF(" ++ input ++ ", 1, 0))")
  else if (func == .max || func == .min) && inputDtype == .boolean then
    .ok (aggNodeName func ++ "(IF(" ++ input ++ ", 1, 0)) == 1")
  else if func == .any then
    .ok ("MAX(IF(" ++ input ++ ", 1, 0)) == 1")
  else if func == .all then
    .ok ("MIN(IF(" ++ input ++ ", 1, 0)) == 1")
  else
    .ok (pyUpper (aggNodeName func) ++ "(" ++ input ++ ")")

/-- Keys of the compilation context's alias table.  Collections are keyed
by object identity (modelled as a numeric node id); `visit_union`
additionally requests an alias for a piece of SQL text (compiler.py line
937), so text keys are kept alongside. -/
inductive AliasKey where
  | node (id : Nat)
  | text (s : String)
  deriving DecidableEq, Repr

/-- The per-compiler mutable state: the seven clause slots plus the limit
value of `_re_init` (compiler.py lines 121-129), together with the
compilation context state the accumulator reads (alias table and rendered
fragment cache; the context class is outside the analysed sources and is
modelled from the spec: first encounter of a key assigns the next
sequential alias, later lookups return the same alias). -/
structure CState where
  selectClause : Option String := none
  fromClause : Option String := none
  whereClause : Option String := none
  groupByClause : Option String := none
  havingClause : Option String := none
  orderByClause : Option String := none
  limit : Option Int := none
  joinPredicates : Option String := none
  aliasCounter : Nat := 0
  aliases : List (AliasKey × String) := []
  fragments : List (Nat × String) := []
  deriving DecidableEq, Repr

/-- `OdpsSQLCompiler._re_init` (compiler.py lines 121-129): reset the
eight clause slots; the context state is untouched. -/
def reInit (cs : CState) : CState :=
  { cs with
    selectClause := none, fromClause := none, whereClause := none,
    groupByClause := none, havingClause := none, orderByClause := none,
    limit := none, joinPredicates := none }

/-- Modelled from the spec: the context's `get_collection_alias(...,
create=True)` / `register_collection`: return the alias already assigned
to the key, or assign the next sequential alias `t1, t2, ...`. -/
def getCollectionAlias (k : AliasKey) (cs : CState) : String × CState :=
  match cs.aliases.lookup k with
  | some a => (a, cs)
  | none =>
    let a := "t" ++ toString (cs.aliasCounter + 1)
    (a, { cs with aliasCounter := cs.aliasCounter + 1, aliases := (k, a) :: cs.aliases })

/-- Modelled from the spec: the context's `add_expr_compiled`: record the
rendered fragment of a node (keyed by node identity). -/
def addFragment (id : Nat) (frag : String) (cs : CState) : CState :=
  { cs with fragments := (id, frag) :: cs.fragments }

/-- The limit value effective at rendering time (compiler.py lines
273-275): when the order-by slot is truthy and the stored limit is falsy
(unset or zero), the safety cap replaces it. -/
def effLimit (cs : CState) : Option Int :=
  if pyStrTruthy cs.orderByClause && !pyIntTruthy cs.limit then
    some GROUPBY_LIMIT
  else cs.limit

/-- The lines accumulated by `to_sql` before the LIMIT line (compiler.py
lines 260-276): SELECT and FROM always, then ON, WHERE, GROUP BY (with
HAVING nested under the group-by branch), then ORDER BY — each appended
only when its slot is Python-truthy. -/
def toSqlPreLimitLines (cs : CState) : List String :=
  let lines := ["SELECT " ++ pyOr cs.selectClause "*" ++ " ",
                "FROM " ++ optFormat cs.fromClause ++ " "]
  let lines := if pyStrTruthy cs.joinPredicates then
                 lines ++ ["ON " ++ cs.joinPredicates.getD ""] else lines
  let lines := if pyStrTruthy cs.whereClause then
                 lines ++ ["WHERE " ++ cs.whereClause.getD "" ++ " "] else lines
  let lines := if pyStrTruthy cs.groupByClause then
                 (let l2 := lines ++ ["GROUP BY " ++ cs.groupByClause.getD "" ++ " "]
                  if pyStrTruthy cs.havingClause then
                    l2 ++ ["HAVING " ++ cs.havingClause.getD "" ++ " "] else l2)
               else lines
  if pyStrTruthy cs.orderByClause then
    lines ++ ["ORDER BY " ++ cs.orderByClause.getD "" ++ " "]
  else lines

/-- The full line list of `to_sql`, ending in the LIMIT line whenever the
effective limit is not None (compiler.py lines 277-278). -/
def toSqlLines (cs : CState) : List String :=
  if (effLimit cs).isSome then
    toSqlPreLimitLines cs ++ ["LIMIT " ++ toString ((effLimit cs).getD 0)]
  else toSqlPreLimitLines cs

/-- `OdpsSQLCompiler.to_sql` (compiler.py lines 259-281): join the
accumulated lines with newlines and reset the clause slots. -/
def toSql (cs : CState) : String × CState :=
  (pyJoin "\n" (toSqlLines cs), reInit cs)

/-- The column-only fragment rendering of a sequence expression used in
filter, sort and join predicates: a column over a collection
(`visit_column`, compiler.py lines 771-777), an integer literal
(`visit_scalar`'s `repr` default), or a Greater comparison
(`visit_binary_op` with the operator table entry for Greater, operands
parenthesized when they are themselves binary operations). -/
inductive SeqE where
  | column (ownerId : Nat) (sourceName : String)
  | intLit (v : Int)
  | gt (lhs rhs : SeqE)
  deriving DecidableEq, Repr

/-- `OdpsSQLCompiler._parenthesis` (compiler.py lines 480-487) restricted
to the embedded sequence grammar: binary operations are wrapped. -/
def parenthesis (child : SeqE) (frag : String) : String :=
  match child with
  | .gt _ _ => "(" ++ frag ++ ")"
  | _ => frag

/-- Render a sequence expression, assigning aliases to the collections its
columns reference (children first, matching traversal order). -/
def compileSeq : SeqE → CState → String × CState
  | .column ownerId nm, cs =>
    let (a, cs) := getCollectionAlias (.node ownerId) cs
    (a ++ ".`" ++ nm ++ "`", cs)
  | .intLit v, cs => (toString v, cs)
  | .gt l r, cs =>
    let (fl, cs) := compileSeq l cs
    let (fr, cs) := compileSeq r cs
    (parenthesis l fl ++ " > " ++ parenthesis r fr, cs)

/-- An aggregation inside a group-by: the reduction kind with its ddof,
whether its input is the whole collection, the input column and its type,
and the output name given to the aggregate. -/
structure AggSpec where
  func : AggName
  ddof : Int
  isCollectionInput : Bool
  colName : String
  colDtype : DfType
  outName : String
  deriving DecidableEq, Repr

/-- The filter predicate grammar: a plain sequence predicate, or a
membership test whose right-hand side is a sequence of another table
(`IsIn` with `values[0]` a `SequenceExpr`), carrying the identity of the
IsIn node, its input column, and the source table and column of the
subquery side. -/
inductive FilterPred where
  | simple (p : SeqE)
  | inSub (isinId : Nat) (input : SeqE) (subProject subTable : String)
          (subTableId : Nat) (subColName : String)
  deriving DecidableEq, Repr

/-- The embedded expression DAG.  Node classes other than filter, project,
slice and the source collection live outside the analysed sources
(`merge.py`, `collections.py`, `groupby.py`) and are modelled from the
compiler's uses of their args together with the spec.  Each node carries
its object identity as a numeric id. -/
inductive Expr where
  | source (id : Nat) (projectName tableName : String)
  | filter (id : Nat) (input : Expr) (pred : FilterPred)
  | proj (id : Nat) (input : Expr) (fields : List String)
  | groupby (id : Nat) (input : Expr) (bys : List String)
            (aggs : List AggSpec) (having : Option String)
  | sort (id : Nat) (input : Expr) (keys : List (String × Bool))
  | sliceLimit (id : Nat) (input : Expr) (start stop step : Option Int)
  | join (id : Nat) (how : String) (lhs rhs : Expr) (pred : SeqE)
  | unionAll (id : Nat) (lhs rhs : Expr) (distinct : Bool)
  deriving DecidableEq, Repr

/-- The object identity of a node. -/
def exprId : Expr → Nat
  | .source id _ _ => id
  | .filter id _ _ => id
  | .proj id _ _ => id
  | .groupby id _ _ _ _ => id
  | .sort id _ _ => id
  | .sliceLimit id _ _ _ _ => id
  | .join id _ _ _ _ => id
  | .unionAll id _ _ _ => id

/-- The `input` attribute of a node (its first child); nodes without an
input collection (source, join, union) return themselves — the compiler
never requests their input. -/
def inputOf : Expr → Expr
  | .filter _ i _ => i
  | .proj _ i _ => i
  | .groupby _ i _ _ _ => i
  | .sort _ i _ => i
  | .sliceLimit _ i _ _ _ => i
  | e => e

/-- The lifting loop of `sub_sql_to_from_clause` (compiler.py lines
286-293): walk up through slice, sorted and filter wrappers before
requesting the alias for the derived table. -/
def liftExpr : Expr → Expr
  | .filter _ i _ => liftExpr i
  | .sort _ i _ => liftExpr i
  | .sliceLimit _ i _ _ _ => liftExpr i
  | e => e

/-- `OdpsSQLCompiler._is_source_table` restricted to the embedded
universe: a collection with source data. -/
def isSourceTable : Expr → Bool
  | .source _ _ _ => true
  | _ => false

/-- Whether a node is a `JoinCollectionExpr`. -/
def isJoinNode : Expr → Bool
  | .join _ _ _ _ _ => true
  | _ => false

/-- Whether a node is a `ProjectCollectionExpr` (checked in
`visit_filter_collection`). -/
def isProjectNode : Expr → Bool
  | .proj _ _ _ => true
  | _ => false

/-- `OdpsSQLCompiler.sub_sql_to_from_clause` (compiler.py lines 283-301):
render the accumulated level with `to_sql`, lift the expression to the
collection that names the derived table, wrap the text as a parenthesized
derived table with that collection's context alias, reset the slots and
install the derived table as the new from-clause. -/
def subSqlToFromClause (expr : Expr) (cs : CState) : CState :=
  let p := toSql cs
  let sql := p.1
  let cs := p.2
  let target := liftExpr expr
  let q := getCollectionAlias (.node (exprId target)) cs
  let fromClause := "(\n" ++ indentStr sql ++ "\n) " ++ q.1
  let cs := reInit q.2
  { cs with fromClause := some fromClause }

/-- `OdpsSQLCompiler.add_select_clause` (compiler.py lines 303-307):
promote the level through `sub_sql_to_from_clause(expr.input)` when the
select slot is already populated, then install the new clause. -/
def addSelectClause (expr : Expr) (clause : String) (cs : CState) : CState :=
  let cs := if cs.selectClause.isSome then subSqlToFromClause (inputOf expr) cs else cs
  { cs with selectClause := some clause }

/-- `OdpsSQLCompiler.add_from_clause` (compiler.py lines 309-311): set the
from slot only when it is still empty. -/
def addFromClause (clause : String) (cs : CState) : CState :=
  if cs.fromClause.isNone then { cs with fromClause := some clause } else cs

/-- `OdpsSQLCompiler.add_where_clause` (compiler.py lines 313-317):
promote when the where slot is already populated, then install. -/
def addWhereClause (expr : Expr) (clause : String) (cs : CState) : CState :=
  let cs := if cs.whereClause.isSome then subSqlToFromClause expr cs else cs
  { cs with whereClause := some clause }

/-- `OdpsSQLCompiler.add_group_by_clause` (compiler.py lines 319-323):
promote when the group-by slot is already populated, then install. -/
def addGroupByClause (expr : Expr) (clause : String) (cs : CState) : CState :=
  let cs := if cs.groupByClause.isSome then subSqlToFromClause expr cs else cs
  { cs with groupByClause := some clause }

/-- `OdpsSQLCompiler.add_having_clause` (compiler.py lines 325-329): set
the having slot when empty, then assert that the stored value equals the
new one; a conflicting second value fails the assertion with the slot
unchanged. -/
def addHavingClause (clause : String) (cs : CState) : Except PyErr Unit × CState :=
  let cs := if cs.havingClause.isSome then cs else { cs with havingClause := some clause }
  if cs.havingClause = some clause then (.ok (), cs) else (.error .assertionError, cs)

/-- `OdpsSQLCompiler.add_order_by_clause` (compiler.py lines 331-335):
promote when the order-by slot is already populated, then install. -/
def addOrderByClause (expr : Expr) (clause : String) (cs : CState) : CState :=
  let cs := if cs.orderByClause.isSome then subSqlToFromClause expr cs else cs
  { cs with orderByClause := some clause }

/-- `OdpsSQLCompiler.set_limit` (compiler.py lines 337-338). -/
def setLimit (n : Int) (cs : CState) : CState :=
  { cs with limit := some n }

/-- A reference to a child node, as captured by the restoration callbacks
(`cached_args = expr.args` in the join and union handlers, `cached_args =
expr.values` in the membership handler). -/
inductive ArgRef where
  | collRef (e : Expr)
  | seqRef (s : SeqE)
  deriving DecidableEq, Repr

/-- The full mutable state of one compiler instance together with the
DAG-side state: the clause accumulator and context (`cs`), the per-node
`_cached_args` overrides living on the DAG nodes, the queued restoration
callbacks (each callback assigns its captured payload back to the node's
`_cached_args`), and the `_sub_compiles` stash. -/
structure FullState where
  cs : CState := {}
  cachedArgs : List (Nat × List (Option ArgRef)) := []
  callbacks : List (Nat × List (Option ArgRef)) := []
  subCompiles : List (Nat × List String) := []
  deriving DecidableEq, Repr

/-- The clean state of a fresh compiler instance and context over an
untouched DAG. -/
def initState : FullState := {}

/-- Append one rendered branch to `_sub_compiles[expr]` (a defaultdict of
lists). -/
def addSubCompile (id : Nat) (s : String) (st : FullState) : FullState :=
  { st with subCompiles :=
      (id, ((st.subCompiles.lookup id).getD []) ++ [s]) :: st.subCompiles }

/-- `OdpsSQLCompiler._cleanup` (compiler.py lines 131-135): drop the
sub-compile stash, run every queued restoration callback (each assigns its
captured payload to the node's `_cached_args`), and clear the queue. -/
def cleanup (st : FullState) : FullState :=
  { st with
    subCompiles := [],
    cachedArgs := st.callbacks.foldl (fun m c => (c.1, c.2) :: m) st.cachedArgs,
    callbacks := [] }

/-- `visit_source_collection` (compiler.py lines 340-348): register the
collection for an alias, render `project.table alias`, install it as the
from-clause when that slot is free, and cache the fragment. -/
def visitSourceCollection (id : Nat) (prj tbl : String) (cs : CState) : CState :=
  let p := getCollectionAlias (.node id) cs
  let fromClause := prj ++ ".`" ++ tbl ++ "` " ++ p.1
  addFragment id fromClause (addFromClause fromClause p.2)

/-- `visit_project_collection` (compiler.py lines 389-397) over
plain-column fields: render each field as `alias.column` against the
node's input collection, join with commas, cache the fragment and add the
select clause (promoting through the node's input when the slot is
taken). -/
def visitProjectCollection (id : Nat) (input : Expr) (fields : List String)
    (cs : CState) : CState :=
  let p := getCollectionAlias (.node (exprId input)) cs
  let compiled := pyJoin ", " (fields.map (fun f => p.1 ++ ".`" ++ f ++ "`"))
  addSelectClause (Expr.proj id input fields) compiled (addFragment id compiled p.2)

/-- `visit_filter_collection` (compiler.py lines 399-408): when a group-by
is already accumulated or the filter's input is a projection, materialize
the input as a derived table first; then cache the predicate fragment and
add the where clause. -/
def visitFilterCollection (id : Nat) (input : Expr) (pred : FilterPred)
    (predFrag : String) (cs : CState) : CState :=
  let cs := if cs.groupByClause.isSome || isProjectNode input then
              subSqlToFromClause input cs else cs
  addWhereClause (Expr.filter id input pred) predFrag (addFragment id predFrag cs)

/-- Render the aggregate select fields of a group-by: each reduction is
rendered by `visit_reduction` over its input column and gets an `AS`
rename by `_compile_select_field` (the aggregate is not a plain column). -/
def compileAggs (a : String) : List AggSpec → Except PyErr (List String)
  | [] => .ok []
  | g :: gs =>
    match visitReduction g.func g.ddof g.isCollectionInput g.colDtype
            (a ++ ".`" ++ g.colName ++ "`") with
    | .error e => .error e
    | .ok frag =>
      match compileAggs a gs with
      | .error e => .error e
      | .ok rest => .ok ((frag ++ " AS " ++ g.outName) :: rest)

/-- `visit_groupby` (compiler.py lines 686-701): the select fields default
to the by-columns followed by the aggregations; add the select clause,
then the group-by clause (each promoting on conflict), then the having
clause when a having predicate is present. -/
def visitGroupby (id : Nat) (input : Expr) (bys : List String)
    (aggs : List AggSpec) (having : Option String) (aggFields : List String)
    (cs : CState) : Except PyErr Unit × CState :=
  let p := getCollectionAlias (.node (exprId input)) cs
  let byFrags := bys.map (fun b => p.1 ++ ".`" ++ b ++ "`")
  let groupByClause := pyJoin ", " byFrags
  let selectClause := pyJoin ", " (byFrags ++ aggFields)
  let e := Expr.groupby id input bys aggs having
  let cs := addSelectClause e selectClause p.2
  let cs := addGroupByClause e groupByClause cs
  match having with
  | none => (.ok (), cs)
  | some h => if h != "" then addHavingClause h cs else (.ok (), cs)

/-- `visit_sort` (compiler.py lines 711-722): render each key as
`alias.column`, with a DESC suffix for a descending key, and add the
order-by clause. -/
def visitSort (id : Nat) (input : Expr) (keys : List (String × Bool))
    (cs : CState) : CState :=
  let p := getCollectionAlias (.node (exprId input)) cs
  let orderBy := pyJoin ", "
    (keys.map (fun k => p.1 ++ ".`" ++ k.1 ++ "`" ++ (if k.2 then "" else " DESC")))
  addOrderByClause (Expr.sort id input keys) orderBy p.2

/-- `OdpsSQLCompiler._compile_in_node` (compiler.py lines 213-227)
followed by the IsIn branch of `visit_element_op` (lines 438-441): render
the input column and flush (the nested `_compile` call ends in `to_sql`),
stash it; compile the one-column projection of the subquery table and
stash it; queue the restoration callback capturing `expr.values` (note:
the values tuple, not `expr.args`); hide the node's children by setting
its `_cached_args` to a list of Nones sized by `expr.args`; then render
the IN fragment from the two stashed pieces. -/
def compileInNode (iid : Nat) (inp : SeqE) (sprj stbl : String)
    (sid : Nat) (scol : String) (st : FullState) : FullState :=
  let p := compileSeq inp st.cs
  let inFrag := p.1
  let cs := (toSql p.2).2
  let st := addSubCompile iid inFrag { st with cs }
  let cs := visitSourceCollection sid sprj stbl st.cs
  let q := getCollectionAlias (.node sid) cs
  let colFrag := q.1 ++ ".`" ++ scol ++ "`"
  let cs := addSelectClause (Expr.proj sid (Expr.source sid sprj stbl) [scol]) colFrag q.2
  let r := toSql cs
  let st := addSubCompile iid (pyStrip r.1) { st with cs := r.2 }
  let st := { st with
    callbacks := st.callbacks ++ [(iid, [some (ArgRef.seqRef (SeqE.column sid scol))])],
    cachedArgs := (iid, [none, none]) :: st.cachedArgs }
  let subs := (st.subCompiles.lookup iid).getD []
  let compiled := (subs.getD 0 "") ++ " IN (" ++ stripNewlines (subs.getD 1 "") ++ ")"
  { st with cs := addFragment iid compiled st.cs }

/-- The root-discovery step (`_retrieve_until_find_root` with
`_need_recursive_handle_in_expr`) applied to a filter predicate: a
membership-subquery node is handled by `_compile_in_node` before the
generic traversal.  Evaluating `node.args` reads the node's
`_cached_args` through `Expr._get_arg` (expressions.py lines 164-169):
when a stale override shorter than the `_args` name tuple is present, the
lookup of the second slot raises IndexError. -/
def preprocessInPred (p : FilterPred) (st : FullState) : Except PyErr Unit × FullState :=
  match p with
  | .simple _ => (.ok (), st)
  | .inSub iid inp sprj stbl sid scol =>
    match st.cachedArgs.lookup iid with
    | some l =>
      if l.length < 2 then (.error .indexError, st)
      else if l.all (fun o => o = none) then (.ok (), st)
      else (.ok (), compileInNode iid inp sprj stbl sid scol st)
    | none => (.ok (), compileInNode iid inp sprj stbl sid scol st)

/-- Render a filter predicate at visit time: a membership node was already
rendered during root discovery, so its cached fragment is read back
(`get_expr_compiled`); a plain predicate is rendered from its columns. -/
def compilePredFrag (p : FilterPred) (st : FullState) : String × FullState :=
  match p with
  | .simple s =>
    let q := compileSeq s st.cs
    (q.1, { st with cs := q.2 })
  | .inSub iid _ _ _ _ _ => ((st.cs.fragments.lookup iid).getD "", st)

/-- Whether a special node's children are currently hidden (its
`_cached_args` override is present and all None), in which case root
discovery skips it and the stashed sub-compiles are missing. -/
def hiddenAllNone (id : Nat) (st : FullState) : Bool :=
  match st.cachedArgs.lookup id with
  | some l => l.all (fun o => o = none)
  | none => false

/-- `OdpsSQLCompiler._compile` over the embedded DAG (compiler.py lines
229-251): bottom-up traversal dispatching each node to its renderer, with
the join, union and membership roots compiled specially
(`_compile_join_node` lines 178-206, `_compile_union_node` lines 162-176)
— each special handler recursively compiles its branches (each nested
`_compile` ending in a `to_sql` flush), stashes the rendered branch text,
queues a restoration callback capturing the original children, hides the
children via the `_cached_args` override, and then the node's own visit
renders from the stash.  Traversal order and the context are modelled from
the spec (the node base class and context live outside the analysed
sources): children are rendered before their parent, and root-like nodes
are handled before the generic traversal reaches them. -/
def compileNode : Expr → FullState → Except PyErr Unit × FullState
  | .source id prj tbl, st =>
    (.ok (), { st with cs := visitSourceCollection id prj tbl st.cs })
  | .proj id input fields, st =>
    (match compileNode input st with
     | (.error e, st) => (.error e, st)
     | (.ok _, st) =>
       (.ok (), { st with cs := visitProjectCollection id input fields st.cs }))
  | .filter id input pred, st =>
    (match preprocessInPred pred st with
     | (.error e, st) => (.error e, st)
     | (.ok _, st) =>
       match compileNode input st with
       | (.error e, st) => (.error e, st)
       | (.ok _, st) =>
         let p := compilePredFrag pred st
         (.ok (), { p.2 with cs := visitFilterCollection id input pred p.1 p.2.cs }))
  | .groupby id input bys aggs having, st =>
    (match compileNode input st with
     | (.error e, st) => (.error e, st)
     | (.ok _, st) =>
       let p := getCollectionAlias (.node (exprId input)) st.cs
       match compileAggs p.1 aggs with
       | .error e => (.error e, { st with cs := p.2 })
       | .ok aggFields =>
         let q := visitGroupby id input bys aggs having aggFields p.2
         (q.1, { st with cs := q.2 }))
  | .sort id input keys, st =>
    (match compileNode input st with
     | (.error e, st) => (.error e, st)
     | (.ok _, st) => (.ok (), { st with cs := visitSort id input keys st.cs }))
  | .sliceLimit _ input start stop step, st =>
    (match compileNode input st with
     | (.error e, st) => (.error e, st)
     | (.ok _, st) =>
       if start.isSome then (.error .notImplementedError, st)
       else if step.isSome then (.error .notImplementedError, st)
       else
         match stop with
         | some v => (.ok (), { st with cs := setLimit v st.cs })
         | none => (.error .attributeError, st))
  | .join id how lhs rhs pred, st =>
    if hiddenAllNone id st then
      -- not yielded as a root; the generic visit unpacks an empty stash
      (match (st.subCompiles.lookup id).getD [] with
       | [l, r, p] =>
         let fromClause := l ++ " \n" ++ how ++ " JOIN \n" ++ indentStr r ++ "\nON " ++ p
         (.ok (), { st with cs := addFragment id fromClause (addFromClause fromClause st.cs) })
       | _ => (.error .valueError, st))
    else
      (match compileNode lhs st with
       | (.error e, st) => (.error e, st)
       | (.ok _, st) =>
         let pl := toSql st.cs
         let sqlL := pyStrip pl.1
         let st := { st with cs := pl.2 }
         let lp :=
           if !(isSourceTable lhs) && !(isJoinNode lhs) then
             let q := getCollectionAlias (.node (exprId lhs)) st.cs
             ("(\n" ++ indentStr sqlL ++ "\n) " ++ q.1, { st with cs := q.2 })
           else (((st.cs.fragments.lookup (exprId lhs)).getD ""), st)
         let st := addSubCompile id lp.1 lp.2
         match compileNode rhs st with
         | (.error e, st) => (.error e, st)
         | (.ok _, st) =>
           let pr := toSql st.cs
           let sqlR := pyStrip pr.1
           let st := { st with cs := pr.2 }
           let rp :=
             if !(isSourceTable rhs) then
               let q := getCollectionAlias (.node (exprId rhs)) st.cs
               ("(\n" ++ indentStr sqlR ++ "\n) " ++ q.1, { st with cs := q.2 })
             else (((st.cs.fragments.lookup (exprId rhs)).getD ""), st)
           let st := addSubCompile id rp.1 rp.2
           let pp := compileSeq pred st.cs
           let cs := (toSql pp.2).2
           let st := addSubCompile id pp.1 { st with cs }
           let st := { st with
             callbacks := st.callbacks ++
               [(id, [some (ArgRef.collRef lhs), some (ArgRef.collRef rhs),
                      some (ArgRef.seqRef pred)])],
             cachedArgs := (id, [none, none, none]) :: st.cachedArgs }
           match (st.subCompiles.lookup id).getD [] with
           | [l, r, p] =>
             let fromClause := l ++ " \n" ++ how ++ " JOIN \n" ++ indentStr r ++ "\nON " ++ p
             (.ok (), { st with cs := addFragment id fromClause (addFromClause fromClause st.cs) })
           | _ => (.error .valueError, st))
  | .unionAll id lhs rhs distinct, st =>
    if hiddenAllNone id st then
      (match (st.subCompiles.lookup id).getD [] with
       | [l, r] =>
         if distinct then (.error (.compileError "Distinct union is not supported here."), st)
         else
           let fc := l ++ " \nUNION ALL\n" ++ indentStr r
           let q := getCollectionAlias (.text fc) st.cs
           let compiled := "(\n" ++ indentStr fc ++ "\n) " ++ q.1
           (.ok (), { st with cs := addFragment id compiled (addFromClause compiled q.2) })
       | _ => (.error .valueError, st))
    else
      (match compileNode lhs st with
       | (.error e, st) => (.error e, st)
       | (.ok _, st) =>
         let pl := toSql st.cs
         let st := addSubCompile id (pyStrip pl.1) { st with cs := pl.2 }
         match compileNode rhs st with
         | (.error e, st) => (.error e, st)
         | (.ok _, st) =>
           let pr := toSql st.cs
           let st := addSubCompile id (pyStrip pr.1) { st with cs := pr.2 }
           let st := { st with
             callbacks := st.callbacks ++
               [(id, [some (ArgRef.collRef lhs), some (ArgRef.collRef rhs)])],
             cachedArgs := (id, [none, none]) :: st.cachedArgs }
           if distinct then (.error (.compileError "Distinct union is not supported here."), st)
           else
             match (st.subCompiles.lookup id).getD [] with
             | [l, r] =>
               let fc := l ++ " \nUNION ALL\n" ++ indentStr r
               let q := getCollectionAlias (.text fc) st.cs
               let compiled := "(\n" ++ indentStr fc ++ "\n) " ++ q.1
               (.ok (), { st with cs := addFragment id compiled (addFromClause compiled q.2) })
             | _ => (.error .valueError, st))

/-- `OdpsSQLCompiler.compile` (compiler.py lines 253-257): run `_compile`
(which ends in a stripped `to_sql`) inside a try/finally whose finally
block is `_cleanup`, so the restoration callbacks run on the success and
on the error path alike. -/
def compile (e : Expr) (st : FullState) : Except PyErr String × FullState :=
  match compileNode e st with
  | (.ok _, st) =>
    let p := toSql st.cs
    (.ok (pyStrip p.1), cleanup { st with cs := p.2 })
  | (.error err, st) => (.error err, cleanup st)

/-- A Python slice literal: optional start, stop and step. -/
structure PySlice where
  start : Option Int
  stop : Option Int
  step : Option Int
  deriving DecidableEq, Repr

/-- The expression layer's collection universe for the `__getitem__`
model (`odps/df/expr/expressions.py`): a source-backed collection, a
filtered collection, or the `SliceCollectionExpr` node produced by
`CollectionExpr._slice` (lines 488-489), which wraps its input and keeps
the slice as its indexes. -/
inductive CollE where
  | srcTable (name : String)
  | filterColl (input : CollE)
  | sliceColl (input : CollE) (indexes : PySlice)
  deriving DecidableEq, Repr

/-- The slice branch of `CollectionExpr.__getitem__` (expressions.py lines
350-353): a slice with all three bounds None returns the collection
itself; any other slice builds a new `SliceCollectionExpr` over it. -/
def getitemSlice (c : CollE) (item : PySlice) : CollE :=
  if item.start = none ∧ item.stop = none ∧ item.step = none then c
  else CollE.sliceColl c item

/-- A slice node is never equal to the collection it wraps (it is a
strictly larger value). -/
theorem sliceColl_ne (c : CollE) : ∀ i, CollE.sliceColl c i ≠ c := by
  induction c with
  | srcTable n => intro i h; exact CollE.noConfusion h
  | filterColl c ih => intro i h; exact CollE.noConfusion h
  | sliceColl c ips ih =>
    intro i h
    injection h with h1 h2
    exact ih ips h1

/-- Joining a non-empty line list extended by one final line appends the
final line after a separator. -/
theorem pyJoin_append_singleton (sep : String) :
    ∀ (xs : List String) (x : String), xs ≠ [] →
      pyJoin sep (xs ++ [x]) = pyJoin sep xs ++ sep ++ x := by
  intro xs
  induction xs with
  | nil => intro x h; exact absurd rfl h
  | cons a as ih =>
    intro x _
    cases as with
    | nil => rfl
    | cons b bs =>
      have h2 := ih x (by simp)
      calc pyJoin sep ((a :: b :: bs) ++ [x])
          = a ++ sep ++ pyJoin sep ((b :: bs) ++ [x]) := rfl
        _ = a ++ sep ++ (pyJoin sep (b :: bs) ++ sep ++ x) := by rw [h2]
        _ = a ++ sep ++ pyJoin sep (b :: bs) ++ sep ++ x := by
              simp [String.append_assoc]

/-- The optional clause segments of the rendered SQL, one independent
segment per slot, concatenated in the fixed order ON, WHERE, GROUP BY
(HAVING only inside the group-by segment), ORDER BY; each segment is
present exactly when its slot holds a Python-truthy value. -/
def toSqlOptLines (cs : CState) : List String :=
  (if pyStrTruthy cs.joinPredicates then ["ON " ++ cs.joinPredicates.getD ""] else [])
  ++ (if pyStrTruthy cs.whereClause then ["WHERE " ++ cs.whereClause.getD "" ++ " "] else [])
  ++ (if pyStrTruthy cs.groupByClause then
        ["GROUP BY " ++ cs.groupByClause.getD "" ++ " "]
        ++ (if pyStrTruthy cs.havingClause then
              ["HAVING " ++ cs.havingClause.getD "" ++ " "] else [])
      else [])
  ++ (if pyStrTruthy cs.orderByClause then
        ["ORDER BY " ++ cs.orderByClause.getD "" ++ " "] else [])

/-- The full line list described by the claim: SELECT, FROM, the optional
segments in their fixed order, and a final LIMIT line exactly when the
effective limit is present. -/
def toSqlLinesSpec (cs : CState) : List String :=
  ["SELECT " ++ pyOr cs.selectClause "*" ++ " ",
   "FROM " ++ optFormat cs.fromClause ++ " "]
  ++ toSqlOptLines cs
  ++ (if (effLimit cs).isSome then
        ["LIMIT " ++ toString ((effLimit cs).getD 0)] else [])

/-- The sequentially accumulated pre-limit lines coincide with the
segment-wise description. -/
theorem toSqlPreLimitLines_eq (cs : CState) :
    toSqlPreLimitLines cs =
      ["SELECT " ++ pyOr cs.selectClause "*" ++ " ",
       "FROM " ++ optFormat cs.fromClause ++ " "] ++ toSqlOptLines cs := by
  unfold toSqlPreLimitLines toSqlOptLines
  by_cases hj : pyStrTruthy cs.joinPredicates = true <;>
  by_cases hw : pyStrTruthy cs.whereClause = true <;>
  by_cases hg : pyStrTruthy cs.groupByClause = true <;>
  by_cases hh : pyStrTruthy cs.havingClause = true <;>
  by_cases ho : pyStrTruthy cs.orderByClause = true <;>
  simp [hj, hw, hg, hh, ho]

/-- The lines of `to_sql` coincide with the segment-wise description. -/
theorem toSqlLines_eq (cs : CState) : toSqlLines cs = toSqlLinesSpec cs := by
  unfold toSqlLines toSqlLinesSpec
  rw [toSqlPreLimitLines_eq]
  by_cases hl : (effLimit cs).isSome = true <;> simp [hl]

/-- The pre-limit line list always starts with the SELECT line. -/
theorem toSqlPreLimitLines_ne_nil (cs : CState) : toSqlPreLimitLines cs ≠ [] := by
  rw [toSqlPreLimitLines_eq]
  simp

deriving instance DecidableEq for Except

/-- C10: for every collection expression, indexing with a slice whose
start, stop and step are all None returns the collection itself (no new
node is constructed), whereas any slice with a non-None bound constructs a
new SliceCollectionExpr wrapping the collection, which is a different node
from the unchanged original. -/
theorem C10_getitem_slice (c : CollE) (item : PySlice) :
    (item.start = none ∧ item.stop = none ∧ item.step = none →
       getitemSlice c item = c) ∧
    (¬(item.start = none ∧ item.stop = none ∧ item.step = none) →
       getitemSlice c item = CollE.sliceColl c item ∧
       CollE.sliceColl c item ≠ c) := by
  refine ⟨fun h => ?_, fun h => ⟨?_, sliceColl_ne c item⟩⟩
  · simp [getitemSlice, h]
  · simp [getitemSlice, h]

/-- Witness for C10 at a source table with the all-None slice and with the
slice whose stop bound is 10. -/
theorem C10_getitem_slice_witness :
    getitemSlice (CollE.srcTable "T") ⟨none, none, none⟩ = CollE.srcTable "T" ∧
    getitemSlice (CollE.srcTable "T") ⟨none, some 10, none⟩ =
      CollE.sliceColl (CollE.srcTable "T") ⟨none, some 10, none⟩ :=
  ⟨(C10_getitem_slice (CollE.srcTable "T") ⟨none, none, none⟩).1 (by decide),
   ((C10_getitem_slice (CollE.srcTable "T") ⟨none, some 10, none⟩).2 (by decide)).1⟩

/-- C8: a variance or standard-deviation reduction with non-zero ddof
fails with a CompileError naming the reduction and the ddof value — no SQL
is produced — while ddof equal to zero renders the plain aggregate
idiom. -/
theorem C8_ddof (ddof : Int) (isColl : Bool) (dtype : DfType) (input : String) :
    (ddof ≠ 0 →
       visitReduction .var ddof isColl dtype input =
         .error (.compileError ("Does not support Var with ddof=" ++ toString ddof)) ∧
       visitReduction .std ddof isColl dtype input =
         .error (.compileError ("Does not support Std with ddof=" ++ toString ddof))) ∧
    visitReduction .var 0 isColl dtype input = .ok ("VAR(" ++ input ++ ")") ∧
    visitReduction .std 0 isColl dtype input = .ok ("STDDEV(" ++ input ++ ")") := by
  refine ⟨fun h => ⟨?_, ?_⟩, ?_, ?_⟩
  · have hb : (ddof != 0) = true := by simp [h]
    simp [visitReduction, hb, aggNodeName]
  · have hb : (ddof != 0) = true := by simp [h]
    simp [visitReduction, hb, aggNodeName]
  · have hu : pyUpper (aggNodeName .var) = "VAR" := by decide
    have hp : ("VAR" : String) ++ "(" = "VAR(" := rfl
    simp [visitReduction, hu, hp, String.append_assoc]
  · simp [visitReduction]

/-- Witness for C8 at ddof one and ddof zero on a concrete column. -/
theorem C8_ddof_witness :
    (1 : Int) ≠ 0 ∧
    visitReduction .var 1 false DfType.float64 "t1.`v`" =
      .error (.compileError "Does not support Var with ddof=1") ∧
    visitReduction .var 0 false DfType.float64 "t1.`v`" = .ok "VAR(t1.`v`)" := by
  refine ⟨by decide, ?_, ?_⟩
  · rw [((C8_ddof 1 false DfType.float64 "t1.`v`").1 (by decide)).1]; decide
  · rw [(C8_ddof 0 false DfType.float64 "t1.`v`").2.1]; decide

/-- C7: an explicit cast whose source-target pair the type-lattice
allow-list rejects fails at the `_cast` checkpoint with an error whose
message names both the source and the target type, while a permitted cast
renders as a CAST wrapper; `visit_cast` routes every type-changing cast
that is not the special integer-to-datetime promotion through this
checkpoint.  The allow-list is a parameter because the type table is
outside the analysed sources. -/
theorem C7_cast_allowlist (allow : String → String → Bool)
    (compiled : String) (s t : DfType) :
    (allow (odpsName t) (odpsName s) = false →
       castExpr allow compiled s t =
         .error (.compileError
           ("Cannot cast from " ++ odpsName s ++ " to " ++ odpsName t)) ∧
       (∃ a b, ("Cannot cast from " ++ odpsName s ++ " to " ++ odpsName t)
          = a ++ odpsName s ++ b) ∧
       (∃ a, ("Cannot cast from " ++ odpsName s ++ " to " ++ odpsName t)
          = a ++ odpsName t)) ∧
    (allow (odpsName t) (odpsName s) = true →
       castExpr allow compiled s t =
         .ok ("CAST(" ++ compiled ++ " AS " ++ odpsName t ++ ")")) ∧
    (¬(isIntegerT s = true ∧ t = DfType.datetime) → s ≠ t →
       visitCast allow compiled s t = castExpr allow compiled s t) := by
  refine ⟨fun h => ⟨?_, ?_, ?_⟩, fun h => ?_, fun h1 h2 => ?_⟩
  · simp [castExpr, h]
  · exact ⟨"Cannot cast from ", " to " ++ odpsName t, by simp [String.append_assoc]⟩
  · exact ⟨"Cannot cast from " ++ odpsName s ++ " to ", rfl⟩
  · simp [castExpr, h]
  · have hc : (isIntegerT s && (t == DfType.datetime)) = false := by
      by_cases hi : isIntegerT s = true
      · have ht : t ≠ DfType.datetime := fun hh => h1 ⟨hi, hh⟩
        simp [hi, ht]
      · simp [Bool.not_eq_true] at hi
        simp [hi]
    have h2s : t ≠ s := Ne.symm h2
    simp [visitCast, hc, h2s]

/-- Witness for C7 with a rejecting and an accepting allow-list on the
string-to-boolean pair. -/
theorem C7_cast_allowlist_witness :
    (fun _ _ => false : String → String → Bool) (odpsName DfType.boolean) (odpsName DfType.string) = false ∧
    castExpr (fun _ _ => false) "x" DfType.string DfType.boolean =
      .error (.compileError "Cannot cast from string to boolean") ∧
    castExpr (fun _ _ => true) "x" DfType.string DfType.boolean =
      .ok "CAST(x AS boolean)" ∧
    visitCast (fun _ _ => true) "x" DfType.string DfType.boolean =
      castExpr (fun _ _ => true) "x" DfType.string DfType.boolean := by
  refine ⟨rfl, ?_, ?_, ?_⟩
  · rw [((C7_cast_allowlist (fun _ _ => false) "x" DfType.string DfType.boolean).1 rfl).1]; decide
  · rw [(C7_cast_allowlist (fun _ _ => true) "x" DfType.string DfType.boolean).2.1 rfl]; decide
  · exact (C7_cast_allowlist (fun _ _ => true) "x" DfType.string DfType.boolean).2.2
      (by decide) (by decide)

/-- C6: setting the having clause a second time with the already stored
value is a no-op that keeps the state unchanged, while a second value
different from the stored one fails the internal assertion, leaving the
stored value in place. -/
theorem C6_having_idempotent (cs : CState) (h : String) :
    (cs.havingClause = some h → addHavingClause h cs = (.ok (), cs)) ∧
    (∀ h₀, cs.havingClause = some h₀ → h₀ ≠ h →
       addHavingClause h cs = (.error .assertionError, cs)) := by
  constructor
  · intro hh
    simp [addHavingClause, hh]
  · intro h₀ hh hne
    simp [addHavingClause, hh, hne]

/-- Witness for C6 at a state whose having slot holds a concrete value. -/
theorem C6_having_idempotent_witness :
    addHavingClause "x" { havingClause := some "x" } =
      (.ok (), { havingClause := some "x" }) ∧
    addHavingClause "y" { havingClause := some "x" } =
      (.error .assertionError, { havingClause := some "x" }) :=
  ⟨(C6_having_idempotent { havingClause := some "x" } "x").1 rfl,
   (C6_having_idempotent { havingClause := some "x" } "y").2 "x" rfl (by decide)⟩

/-- Promotion resets every clause slot other than the from-clause it
installs. -/
theorem subSqlToFromClause_resets (e : Expr) (cs : CState) :
    (subSqlToFromClause e cs).selectClause = none ∧
    (subSqlToFromClause e cs).whereClause = none ∧
    (subSqlToFromClause e cs).groupByClause = none ∧
    (subSqlToFromClause e cs).havingClause = none ∧
    (subSqlToFromClause e cs).orderByClause = none ∧
    (subSqlToFromClause e cs).limit = none ∧
    (subSqlToFromClause e cs).joinPredicates = none :=
  ⟨rfl, rfl, rfl, rfl, rfl, rfl, rfl⟩

/-- Promotion installs exactly the parenthesized render of the current
level, aliased by the context alias of the lifted target collection. -/
theorem subSqlToFromClause_from (e : Expr) (cs : CState) :
    (subSqlToFromClause e cs).fromClause =
      some ("(\n" ++ indentStr (toSql cs).1 ++ "\n) " ++
        (getCollectionAlias (AliasKey.node (exprId (liftExpr e))) (toSql cs).2).1) :=
  rfl

/-- C3 (amended): for every accumulator state, to_sql assembles the text
as the fixed-order line list — SELECT, FROM, then ON, WHERE, GROUP BY
(HAVING only inside the group-by branch), ORDER BY and LIMIT — where each
optional segment appears exactly when its slot holds a Python-truthy
(non-None and non-empty) value, and after rendering every one of the eight
clause slots is reset to empty while the context (alias counter, alias
table, fragment cache) is preserved, so the same accumulator is reusable
for the next nesting level or the next compile call. -/
theorem C3_to_sql_order_and_reset (cs : CState) :
    (toSql cs).1 = pyJoin "\n" (toSqlLinesSpec cs) ∧
    (toSql cs).2 = reInit cs ∧
    (toSql cs).2.selectClause = none ∧
    (toSql cs).2.fromClause = none ∧
    (toSql cs).2.joinPredicates = none ∧
    (toSql cs).2.whereClause = none ∧
    (toSql cs).2.groupByClause = none ∧
    (toSql cs).2.havingClause = none ∧
    (toSql cs).2.orderByClause = none ∧
    (toSql cs).2.limit = none ∧
    (toSql cs).2.aliasCounter = cs.aliasCounter ∧
    (toSql cs).2.aliases = cs.aliases ∧
    (toSql cs).2.fragments = cs.fragments := by
  refine ⟨?_, rfl, rfl, rfl, rfl, rfl, rfl, rfl, rfl, rfl, rfl, rfl, rfl⟩
  unfold toSql
  rw [toSqlLines_eq]

/-- C3 counterexample: the claim reads the clause condition as the slot
being set, but the code tests Python truthiness — at a state whose where
slot is set to the empty string, the rendered text contains no WHERE
clause at all. -/
theorem C3_counterexample :
    ({ fromClause := some "f", whereClause := some "" } : CState).whereClause.isSome = true ∧
    (toSql { fromClause := some "f", whereClause := some "" }).1 = "SELECT * \nFROM f " ∧
    strContains (toSql { fromClause := some "f", whereClause := some "" }).1 "WHERE" = false := by
  decide

/-- C5 (amended): whenever the order-by slot holds a non-empty clause and
the stored limit is unset or zero (Python-falsy), to_sql emits the
safety-cap constant 10000 as the final LIMIT line; an explicit non-zero
limit is emitted unchanged instead. -/
theorem C5_default_limit (cs : CState) (ho : pyStrTruthy cs.orderByClause = true) :
    toString GROUPBY_LIMIT = "10000" ∧
    ((cs.limit = none ∨ cs.limit = some 0) →
       ∃ p, (toSql cs).1 = p ++ "\n" ++ ("LIMIT " ++ toString GROUPBY_LIMIT)) ∧
    (∀ n : Int, cs.limit = some n → n ≠ 0 →
       ∃ p, (toSql cs).1 = p ++ "\n" ++ ("LIMIT " ++ toString n)) := by
  refine ⟨by decide, ?_, ?_⟩
  · intro hl
    have he : effLimit cs = some GROUPBY_LIMIT := by
      rcases hl with h | h <;> simp [effLimit, ho, pyIntTruthy, h]
    unfold toSql toSqlLines
    rw [he]
    simp only [Option.isSome_some, if_true, Option.getD_some]
    rw [pyJoin_append_singleton "\n" _ _ (toSqlPreLimitLines_ne_nil cs)]
    exact ⟨pyJoin "\n" (toSqlPreLimitLines cs), rfl⟩
  · intro n hn hnz
    have ht : pyIntTruthy (some n) = true := by
      simp [pyIntTruthy, bne_iff_ne, hnz]
    have he : effLimit cs = some n := by
      simp [effLimit, ho, hn, ht]
    unfold toSql toSqlLines
    rw [he]
    simp only [Option.isSome_some, if_true, Option.getD_some]
    rw [pyJoin_append_singleton "\n" _ _ (toSqlPreLimitLines_ne_nil cs)]
    exact ⟨pyJoin "\n" (toSqlPreLimitLines cs), rfl⟩

/-- Witness for C5 at a state with an order-by clause and no limit. -/
theorem C5_default_limit_witness :
    pyStrTruthy ({ fromClause := some "f", orderByClause := some "k" } : CState).orderByClause = true ∧
    ∃ p, (toSql { fromClause := some "f", orderByClause := some "k" }).1 =
      p ++ "\n" ++ ("LIMIT " ++ toString GROUPBY_LIMIT) :=
  ⟨by decide,
   (C5_default_limit { fromClause := some "f", orderByClause := some "k" } (by decide)).2.1
     (Or.inl rfl)⟩

/-- C5 counterexample: an explicitly stored limit of zero is Python-falsy,
so with an order-by present the cap 10000 is emitted instead of the
explicitly set limit 0, contradicting the claim that an explicit limit is
always emitted. -/
theorem C5_counterexample :
    ({ fromClause := some "f", orderByClause := some "k", limit := some 0 } : CState).limit
      = some 0 ∧
    (toSql { fromClause := some "f", orderByClause := some "k", limit := some 0 }).1 =
      "SELECT * \nFROM f \nORDER BY k \nLIMIT 10000" ∧
    strEndsWith
      (toSql { fromClause := some "f", orderByClause := some "k", limit := some 0 }).1
      "LIMIT 0" = false := by
  decide

/-- A chain of two group-by stages over one source table. -/
def twoGroupbys : Expr :=
  .groupby 2
    (.groupby 1 (.source 0 "p" "T") ["k"]
      [⟨.sum, 0, false, "v", .int64, "s"⟩] none)
    ["s"] [⟨.max, 0, false, "s", .int64, "m"⟩] none

/-- C2: every clause-setting operation that finds its slot already
populated first promotes the current level — the promoted state renders
the accumulated slots into one SQL string installed as a parenthesized,
context-aliased derived table in the from slot with every other slot
cleared — and only then installs the new clause into the now-empty slot;
a where clause arriving while a group-by is accumulated promotes through
the filter's input the same way; and in particular compiling two
sequential group-bys materializes the first as a derived table beneath
the second. -/
theorem C2_promotion_on_conflict (e : Expr) (cl : String) (cs : CState) :
    (cs.selectClause.isSome = true →
       addSelectClause e cl cs =
         { subSqlToFromClause (inputOf e) cs with selectClause := some cl }) ∧
    (cs.groupByClause.isSome = true →
       addGroupByClause e cl cs =
         { subSqlToFromClause e cs with groupByClause := some cl }) ∧
    (cs.whereClause.isSome = true →
       addWhereClause e cl cs =
         { subSqlToFromClause e cs with whereClause := some cl }) ∧
    (cs.orderByClause.isSome = true →
       addOrderByClause e cl cs =
         { subSqlToFromClause e cs with orderByClause := some cl }) ∧
    (∀ fid fin fpred, cs.groupByClause.isSome = true →
       visitFilterCollection fid fin fpred cl cs =
         { addFragment fid cl (subSqlToFromClause fin cs) with whereClause := some cl }) ∧
    ((subSqlToFromClause e cs).fromClause =
       some ("(\n" ++ indentStr (toSql cs).1 ++ "\n) " ++
         (getCollectionAlias (AliasKey.node (exprId (liftExpr e))) (toSql cs).2).1)) ∧
    (subSqlToFromClause e cs).selectClause = none ∧
    (subSqlToFromClause e cs).whereClause = none ∧
    (subSqlToFromClause e cs).groupByClause = none ∧
    (subSqlToFromClause e cs).havingClause = none ∧
    (subSqlToFromClause e cs).orderByClause = none ∧
    (subSqlToFromClause e cs).limit = none ∧
    (compile twoGroupbys initState).1 =
      .ok ("SELECT t2.`s`, MAX(t2.`s`) AS m \nFROM (\n  SELECT t1.`k`, SUM(t1.`v`) AS s "
        ++ "\n  FROM p.`T` t1 \n  GROUP BY t1.`k` \n) t2 \nGROUP BY t2.`s`") := by
  refine ⟨fun h => ?_, fun h => ?_, fun h => ?_, fun h => ?_,
          fun fid fin fpred h => ?_,
          subSqlToFromClause_from e cs,
          (subSqlToFromClause_resets e cs).1,
          (subSqlToFromClause_resets e cs).2.1,
          (subSqlToFromClause_resets e cs).2.2.1,
          (subSqlToFromClause_resets e cs).2.2.2.1,
          (subSqlToFromClause_resets e cs).2.2.2.2.1,
          (subSqlToFromClause_resets e cs).2.2.2.2.2.1,
          by decide⟩
  · simp [addSelectClause, h]
  · simp [addGroupByClause, h]
  · simp [addWhereClause, h]
  · simp [addOrderByClause, h]
  · have hw : (addFragment fid cl (subSqlToFromClause fin cs)).whereClause = none :=
      (subSqlToFromClause_resets fin cs).2.1
    simp [visitFilterCollection, h, addWhereClause, hw]

/-- Witness for C2 at a state whose group-by slot is populated. -/
theorem C2_promotion_on_conflict_witness :
    ({ selectClause := some "s0", groupByClause := some "g0",
       fromClause := some "p.`T` t1" } : CState).groupByClause.isSome = true ∧
    addGroupByClause (Expr.source 3 "p" "T") "g1"
      { selectClause := some "s0", groupByClause := some "g0",
        fromClause := some "p.`T` t1" } =
      { subSqlToFromClause (Expr.source 3 "p" "T")
          { selectClause := some "s0", groupByClause := some "g0",
            fromClause := some "p.`T` t1" } with groupByClause := some "g1" } :=
  ⟨by decide,
   (C2_promotion_on_conflict (Expr.source 3 "p" "T") "g1"
     { selectClause := some "s0", groupByClause := some "g0",
       fromClause := some "p.`T` t1" }).2.1 (by decide)⟩

/-- The chain Source(T) → filter(pred) → project(cols) from the claim,
with the predicate `id > 0` and the projected columns id and name. -/
def filterThenProject : Expr :=
  .proj 2 (.filter 1 (.source 0 "test_project" "T")
            (.simple (.gt (.column 0 "id") (.intLit 0)))) ["id", "name"]

/-- The reversed chain Source(T) → project(cols) → filter(pred), whose
filter input is a projection. -/
def projectThenFilter : Expr :=
  .filter 2 (.proj 1 (.source 0 "test_project" "T") ["id", "name"])
    (.simple (.gt (.column 1 "id") (.intLit 0)))

/-- C4 counterexample: compiling Source → filter → project yields one flat
query whose text holds the filter's WHERE and the projection's SELECT at
the same nesting level and contains no parenthesized derived table at
all, contradicting the claimed mandatory nesting. -/
theorem C4_counterexample :
    (compile filterThenProject initState).1 =
      .ok "SELECT t2.`id`, t2.`name` \nFROM test_project.`T` t1 \nWHERE t1.`id` > 0" ∧
    strContains
      "SELECT t2.`id`, t2.`name` \nFROM test_project.`T` t1 \nWHERE t1.`id` > 0"
      "WHERE" = true ∧
    strContains
      "SELECT t2.`id`, t2.`name` \nFROM test_project.`T` t1 \nWHERE t1.`id` > 0"
      "(" = false := by
  decide

/-- C4 (amended): the chain Source → filter → project compiles to a single
flat query — the projection joins the filter's level because the select
slot is still empty when the projection arrives, matching the spec's own
scenario for this pipeline — whereas the reversed chain Source → project →
filter materializes the projected input as a parenthesized derived table
beneath the filter, because `visit_filter_collection` promotes a
projection input. -/
theorem C4_filter_project_flat :
    (compile filterThenProject initState).1 =
      .ok "SELECT t2.`id`, t2.`name` \nFROM test_project.`T` t1 \nWHERE t1.`id` > 0" ∧
    (compile projectThenFilter initState).1 =
      .ok ("SELECT * \nFROM (\n  SELECT t1.`id`, t1.`name` \n  FROM test_project.`T` t1 "
        ++ "\n) t2 \nWHERE t2.`id` > 0") := by
  decide

/-- A DAG whose filter predicate contains a membership-subquery node: the
filter over table T1 tests column id against the fid column of table T2
(`T1[T1.id.isin(T2.fid)]`). -/
def inSubDag : Expr :=
  .filter 1 (.source 0 "prj" "T1")
    (.inSub 10 (.column 0 "id") "prj" "T2" 5 "fid")

/-- A distinct union, whose visit raises after the union's children have
been hidden and its restoration callback queued. -/
def distinctUnionDag : Expr :=
  .unionAll 7 (.source 5 "p" "A") (.source 6 "p" "B") true

/-- C1: compile() does run the queued restoration callbacks on the success
and the error exit path — the union hidden before the distinct-union
failure has its original children (lhs, rhs) restored — but the
membership-subquery handler queues a callback that captures `expr.values`
instead of `expr.args`, so after a successful compile the IsIn node's
cached-args override holds only the one-element values tuple rather than
its original two children (input, values): the override survives with
wrong contents, the node's children are not restored, and a second compile
of the same DAG fails with an IndexError when `Expr._get_arg` indexes the
stale one-element tuple at the values slot. -/
theorem C1_in_node_restore_bug :
    (compile inSubDag initState).1 =
      .ok "SELECT * \nFROM prj.`T1` t1 \nWHERE t1.`id` IN (SELECT t2.`fid` FROM prj.`T2` t2)" ∧
    (compile inSubDag initState).2.cachedArgs.lookup 10 =
      some [some (ArgRef.seqRef (SeqE.column 5 "fid"))] ∧
    (some [some (ArgRef.seqRef (SeqE.column 5 "fid"))] : Option (List (Option ArgRef))) ≠
      some [some (ArgRef.seqRef (SeqE.column 0 "id")),
            some (ArgRef.seqRef (SeqE.column 5 "fid"))] ∧
    (compile inSubDag
      { initState with cachedArgs := (compile inSubDag initState).2.cachedArgs }).1 =
      .error PyErr.indexError ∧
    (compile distinctUnionDag initState).1 =
      .error (PyErr.compileError "Distinct union is not supported here.") ∧
    (compile distinctUnionDag initState).2.cachedArgs.lookup 7 =
      some [some (ArgRef.collRef (Expr.source 5 "p" "A")),
            some (ArgRef.collRef (Expr.source 6 "p" "B"))] ∧
    (compile distinctUnionDag initState).2.callbacks = [] := by
  decide

/-- C9: two successive runs of compile() over the same DAG with fresh
per-run compiler and context state do not always produce identical SQL
text — on a DAG holding a membership-subquery node the first run succeeds
while the second raises an IndexError, because the first run's restoration
callback left the IsIn node's cached-args override misaligned. -/
theorem C9_second_compile_differs :
    (compile inSubDag initState).1 =
      .ok "SELECT * \nFROM prj.`T1` t1 \nWHERE t1.`id` IN (SELECT t2.`fid` FROM prj.`T2` t2)" ∧
    (compile inSubDag
      { initState with cachedArgs := (compile inSubDag initState).2.cachedArgs }).1 =
      .error PyErr.indexError ∧
    (compile inSubDag initState).1 ≠
      (compile inSubDag
        { initState with cachedArgs := (compile inSubDag initState).2.cachedArgs }).1 := by
  decide
